import Mathlib

/-!
Shallow embedding of `src/backtest/src/dashboard.py`, the single script of this
repository: a dashboard that loads precomputed backtest CSV files (a summary
table and three per-period timeline tables) and renders derived series.

Modelling conventions:
* a CSV table is a `List` of typed rows; a possibly-missing cell (pandas NaN)
  is an `Option ℚ`; monetary and ratio values are `ℚ` (floating point is not
  exactly statable, and every claim here is about selection, windowing and
  exact arithmetic identities, not rounding);
* the time index is `Nat` (epoch seconds); the spec's invariant that each
  timeline is indexed by strictly increasing timestamps lets label-based
  `loc` slicing be modelled positionally;
* pandas semantics encoded where the source calls into pandas:
  `Series.idxmax` on an all-False boolean mask returns the first label, and
  raises `ValueError` on an empty series; a `pd.Timestamp` is always truthy,
  so the `if first_equity_idx:` guard on line 24 is always taken for a
  datetime index; `Series.ffill` propagates the last non-NaN value and leaves
  leading NaNs; `Series.pct_change` computes `x[t]/x[t-1] - 1` with NaN when
  either operand is NaN and NaN at the first row; `rolling(30).std()` uses
  `min_periods = 30` (the first 29 outputs are NaN) and sample standard
  deviation with `ddof = 1`; `groupby(...).sum()` sums the column per key;
* file reads are an explicit environment (`ResultsDir`); a missing file is
  pandas raising `FileNotFoundError`, modelled as an error value.
-/

/-- A row of a `timeline_*.csv` table, with the columns the dashboard touches.
The index timestamp is carried in the row; a NaN equity cell is `none`. -/
structure Row where
  time : Nat
  equity : Option ℚ
  volume_usd : ℚ
  signal : Int
  price : ℚ
  qty : ℚ
  pnl : ℚ
  is_entry : Bool
  is_exit : Bool
deriving DecidableEq

/-- A row of `performance_summary.csv`, with the columns the dashboard reads
(dates already parsed, as `to_datetime` does on lines 12-13). -/
structure SummaryRow where
  period : String
  start_date : Nat
  end_date : Nat
  rows : Nat
  initial_capital : ℚ
  net_pnl : ℚ
  total_return_pct : ℚ
  sharpe_ratio : ℚ
  max_drawdown_pct : ℚ
  win_rate_pct : ℚ
  trades_per_year : ℚ
  avg_hold_hours : ℚ
  total_volume_usd : ℚ
  avg_daily_volume : ℚ
  avg_hourly_volume : ℚ
  actual_trades : Nat
  signal_flips : Nat
deriving DecidableEq

/-- One cell of the boolean mask `df["equity"] > 0` (line 23); pandas compares
NaN > 0 as False. -/
def equityPos (r : Row) : Bool :=
  match r.equity with
  | some e => decide (0 < e)
  | none => false

/-- Errors the loading path can raise: `FileNotFoundError` from `read_csv`,
and the `ValueError` that `idxmax` raises on an empty series. -/
inductive PdError where
  | fileNotFound (name : String)
  | emptyArgmax
deriving DecidableEq

/-- Lines 22-27 of `load_backtest_data`: `first_equity_idx = (df["equity"] > 0).idxmax()`
followed by `df = df.loc[first_equity_idx:]`.  On an empty table `idxmax`
raises `ValueError`.  Otherwise, if some row has positive equity, `idxmax`
returns its label and the slice keeps the suffix from that row; if no row
does, `idxmax` of the all-False mask returns the first label and the slice
keeps the whole table.  (The `if first_equity_idx:` guard is always true for
a datetime label.) -/
def trimWarmup (df : List Row) : Except PdError (List Row) :=
  if df.isEmpty then Except.error PdError.emptyArgmax
  else if df.any equityPos then Except.ok (df.dropWhile (fun r => ! equityPos r))
  else Except.ok df

/-- The fixed results directory, as an environment of the four files the
loader reads; `none` means the file is absent. -/
structure ResultsDir where
  performance_summary : Option (List SummaryRow)
  timeline_last_month : Option (List Row)
  timeline_full_3mo : Option (List Row)
  timeline_prior_2mo : Option (List Row)

/-- `read_csv(f"{results_dir}/timeline_{period}.csv", ...)` resolved against
the environment. -/
def readTimeline (dir : ResultsDir) (period : String) : Option (List Row) :=
  if period = "last_month" then dir.timeline_last_month
  else if period = "full_3mo" then dir.timeline_full_3mo
  else if period = "prior_2mo" then dir.timeline_prior_2mo
  else none

/-- The `for period in [...]` loop of lines 17-28: read each period's
timeline in order, apply the warm-up trim, and accumulate the per-period
tables.  An error at one period aborts the loop, as the raised exception
does in Python. -/
def loadTimelines (dir : ResultsDir) : List String → Except PdError (List (String × List Row))
  | [] => Except.ok []
  | period :: rest => do
    let df ← match readTimeline dir period with
      | some df => Except.ok df
      | none => Except.error (PdError.fileNotFound ("timeline_" ++ period ++ ".csv"))
    let trimmed ← trimWarmup df
    let tl ← loadTimelines dir rest
    pure ((period, trimmed) :: tl)

/-- Lines 6-30, `load_backtest_data`: read the summary, then for each of the
three periods in order read the timeline and apply the warm-up trim.  A
missing file surfaces as `FileNotFoundError` at the point it is read. -/
def loadBacktestData (dir : ResultsDir) :
    Except PdError (List SummaryRow × List (String × List Row)) := do
  let summary_df ← match dir.performance_summary with
    | some s => Except.ok s
    | none => Except.error (PdError.fileNotFound "performance_summary.csv")
  let timelines ← loadTimelines dir ["last_month", "full_3mo", "prior_2mo"]
  pure (summary_df, timelines)

/-- Line 62: `summary_df[summary_df["period"] == selected_period].iloc[0]`.
`iloc[0]` on an empty selection raises an out-of-bounds `IndexError`. -/
inductive RenderError where
  | indexOutOfBounds
deriving DecidableEq

/-- Selection of the per-period summary row (line 62). -/
def period_summary_row (summary : List SummaryRow) (p : String) :
    Except RenderError SummaryRow :=
  match summary.filter (fun r => r.period == p) with
  | [] => Except.error RenderError.indexOutOfBounds
  | r :: _ => Except.ok r

/-- `Series.ffill`, carrying the last non-NaN value seen so far. -/
def ffillAux : Option ℚ → List (Option ℚ) → List (Option ℚ)
  | _, [] => []
  | last, none :: t => last :: ffillAux last t
  | _, some v :: t => some v :: ffillAux (some v) t

/-- Line 66: `equity = timeline_df["equity"].ffill()`. -/
def ffill (xs : List (Option ℚ)) : List (Option ℚ) := ffillAux none xs

/-- The forward-filled equity series of a timeline. -/
def equitySeries (df : List Row) : List (Option ℚ) := ffill (df.map Row.equity)

/-- Line 67: `cum_pnl = equity - initial_capital` (a NaN cell stays NaN under
scalar subtraction). -/
def cum_pnl (df : List Row) (initial_capital : ℚ) : List (Option ℚ) :=
  (equitySeries df).map (Option.map (fun e => e - initial_capital))

/-- One step of `Series.pct_change`: `x[t] / x[t-1] - 1`, NaN-propagating. -/
def pctChangeCell (a b : Option ℚ) : Option ℚ :=
  match a, b with
  | some a, some b => some (b / a - 1)
  | _, _ => none

/-- `Series.pct_change`: NaN at the first row, then cell-wise on adjacent
values. -/
def pct_change_raw (xs : List (Option ℚ)) : List (Option ℚ) :=
  match xs with
  | [] => []
  | _ :: t => none :: List.zipWith pctChangeCell xs t

/-- Line 156: `pct_change = equity.pct_change().fillna(0)`. -/
def pct_change_series (df : List Row) : List ℚ :=
  (pct_change_raw (equitySeries df)).map (fun o => o.getD 0)

/-- Arithmetic mean of a window. -/
def mean (ws : List ℚ) : ℚ := ws.sum / (ws.length : ℚ)

/-- Sample variance with `ddof = 1`, the default of pandas `rolling(...).std()`
(whose output is the square root of this quantity). -/
def sampleVar (ws : List ℚ) : ℚ :=
  ((ws.map (fun w => (w - mean ws) ^ 2)).sum) / ((ws.length : ℚ) - 1)

/-- `rolling(w).std()` at the variance level: NaN until a full window of `w`
observations is available (`min_periods` defaults to the window size), then
the sample variance of the `w` most recent values.  The standard deviation
the chart shows is the square root of each defined entry; the windowing and
the `ddof` convention are fully captured here, and square root is monotone
and injective on nonnegatives, so the variance determines the std. -/
def rolling_var (w : Nat) (xs : List ℚ) : List (Option ℚ) :=
  (List.range xs.length).map (fun t =>
    if t + 1 < w then none
    else some (sampleVar ((xs.drop (t + 1 - w)).take w)))

/-- Line 157 squared: `vol_rolling = pct_change.rolling(30).std()`. -/
def vol_rolling_sq (df : List Row) : List (Option ℚ) :=
  rolling_var 30 (pct_change_series df)

/-- `timeline_df.index.date`: the calendar date of an epoch-seconds
timestamp. -/
def dateOf (t : Nat) : Nat := t / 86400

/-- Line 135: `timeline_df.groupby(timeline_df.index.date)["volume_usd"].sum()`.
Groupby emits one group per distinct key with the column summed over the
group; pandas sorts the keys, we keep first-occurrence order, which carries
the same set of (date, sum) pairs. -/
def daily_volume (df : List Row) : List (Nat × ℚ) :=
  ((df.map (fun r => dateOf r.time)).dedup).map (fun d =>
    (d, ((df.filter (fun r => dateOf r.time == d)).map Row.volume_usd).sum))

/-- Line 259: `trade_log = timeline_df[timeline_df["is_exit"] | timeline_df["is_entry"]]`. -/
def trade_log (df : List Row) : List Row :=
  df.filter (fun r => r.is_exit || r.is_entry)

/-- Lines 263-272: the columns the trade-log display expects. -/
def display_cols : List String :=
  ["signal", "price", "qty", "pnl", "equity", "volume_usd", "is_entry", "is_exit"]

/-- `KeyError` raised by a direct column access on a frame lacking it. -/
inductive KeyError where
  | missing (c : String)
deriving DecidableEq

/-- A direct column access `df[c]`, which raises `KeyError` when absent. -/
def requireCol (columns : List String) (c : String) : Except KeyError Unit :=
  if c ∈ columns then Except.ok () else Except.error (KeyError.missing c)

/-- Line 273: `available_cols = [col for col in display_cols if col in trade_log.columns]`. -/
def available_cols (columns : List String) : List String :=
  display_cols.filter (fun c => columns.contains c)

/-- Lines 259-274 at the level of column presence: building the trade log
accesses `is_exit` then `is_entry` directly (KeyError when absent), after
which the display restricts itself to whichever expected columns exist. -/
def renderTradeLogCols (columns : List String) : Except KeyError (List String) := do
  let _ ← requireCol columns "is_exit"
  let _ ← requireCol columns "is_entry"
  pure (available_cols columns)

/-- Lines 293-297: the period-to-display-name dictionary. -/
def period_names : List (String × String) :=
  [("last_month", "Last Month"), ("full_3mo", "Full 3 Months"),
   ("prior_2mo", "Prior 2 Months")]

/-- A row of the cross-period comparison table (lines 300-309); the formatted
string cells are kept as their underlying values. -/
structure CompRow where
  Period : String
  return_pct : ℚ
  sharpe : ℚ
  max_dd_pct : ℚ
  win_rate : ℚ
  trades_per_year : ℚ
deriving DecidableEq

/-- One iteration of the loop on lines 299-309; `period_names[row["period"]]`
raises `KeyError` (here `none`) on an unknown period identifier. -/
def compRowOf (r : SummaryRow) : Option CompRow :=
  (period_names.lookup r.period).map (fun nm =>
    { Period := nm, return_pct := r.total_return_pct, sharpe := r.sharpe_ratio,
      max_dd_pct := r.max_drawdown_pct, win_rate := r.win_rate_pct,
      trades_per_year := r.trades_per_year })

/-- Lines 299-311: `comparison_df`, built by the `for _, row in
summary_df.iterrows()` loop appending one comparison row per summary row; a
`KeyError` on an unknown period aborts the loop. -/
def comparison_df : List SummaryRow → Option (List CompRow)
  | [] => some []
  | r :: rest => do
    let c ← compRowOf r
    let t ← comparison_df rest
    pure (c :: t)

/-- The three period identifiers the dashboard knows. -/
def knownPeriods : List String := ["last_month", "full_3mo", "prior_2mo"]

/-- A timeline row with zero equity, used as a concrete input. -/
def zeroRow : Row :=
  { time := 0, equity := some 0, volume_usd := 0, signal := 0, price := 0,
    qty := 0, pnl := 0, is_entry := false, is_exit := false }

/-- A timeline row with positive equity, used as a concrete input. -/
def posRow : Row :=
  { zeroRow with time := 60, equity := some 100 }

/-- A summary row for period `p` with fixed metric values, used as a concrete
input. -/
def sampleSummary (p : String) : SummaryRow :=
  { period := p, start_date := 0, end_date := 86400, rows := 2,
    initial_capital := 10000, net_pnl := 5, total_return_pct := 1,
    sharpe_ratio := 2, max_drawdown_pct := 3, win_rate_pct := 50,
    trades_per_year := 100, avg_hold_hours := 4, total_volume_usd := 1000,
    avg_daily_volume := 10, avg_hourly_volume := 1, actual_trades := 7,
    signal_flips := 9 }

/-- If some row satisfies `equityPos`, the drop of the non-positive prefix is
nonempty and starts with a positive-equity row. -/
theorem dropWhile_equityPos_head (l : List Row) (h : l.any equityPos = true) :
    ∃ a t, l.dropWhile (fun r => ! equityPos r) = a :: t ∧ equityPos a = true := by
  induction l with
  | nil => simp at h
  | cons a l ih =>
    cases ha : equityPos a with
    | true =>
      refine ⟨a, l, ?_, ha⟩
      simp [List.dropWhile_cons, ha]
    | false =>
      rw [List.any_cons, ha, Bool.false_or] at h
      obtain ⟨b, t, hd, hb⟩ := ih h
      exact ⟨b, t, by simp [List.dropWhile_cons, ha, hd], hb⟩

/-- C1: the claim fails on a table whose rows all have zero equity: the
all-False mask's `idxmax` returns the first label, the `loc` slice keeps the
whole table, and the first retained row still has equity zero. -/
theorem C1_counterexample :
    trimWarmup [zeroRow] = Except.ok [zeroRow] ∧ zeroRow.equity = some 0 := by
  constructor
  · rfl
  · rfl

/-- C1 (amended): provided at least one row has positive equity, the warm-up
trim removes exactly the leading rows whose equity is not positive (zero,
negative or missing) — in particular every leading zero-equity row — and the
first retained row has positive, hence non-zero, equity. -/
theorem C1_trim_amended (df : List Row) (h : df.any equityPos = true) :
    ∃ pre kept, trimWarmup df = Except.ok kept ∧ df = pre ++ kept ∧
      (∀ r ∈ pre, equityPos r = false) ∧
      (∃ r rest, kept = r :: rest ∧ equityPos r = true) := by
  have hne : df.isEmpty = false := by
    cases df with
    | nil => simp at h
    | cons a l => rfl
  refine ⟨df.takeWhile (fun r => ! equityPos r),
          df.dropWhile (fun r => ! equityPos r), ?_, ?_, ?_, ?_⟩
  · simp [trimWarmup, hne, h]
  · exact (List.takeWhile_append_dropWhile (fun r => ! equityPos r) df).symm
  · intro r hr
    have := List.mem_takeWhile_imp hr
    simpa using this
  · obtain ⟨a, t, hd, ha⟩ := dropWhile_equityPos_head df h
    exact ⟨a, t, hd, ha⟩

/-- C1 amended, instantiated on a table with one zero-equity then one
positive-equity row. -/
theorem C1_trim_amended_witness :
    ∃ pre kept, trimWarmup [zeroRow, posRow] = Except.ok kept ∧
      [zeroRow, posRow] = pre ++ kept ∧
      (∀ r ∈ pre, equityPos r = false) ∧
      (∃ r rest, kept = r :: rest ∧ equityPos r = true) :=
  C1_trim_amended [zeroRow, posRow] (by rfl)

/-- C9: whatever table the warm-up trim returns is a contiguous suffix of its
input: only leading rows are removed, and every retained row keeps its
values, its index timestamp and its relative order. -/
theorem C9_trim_suffix (df kept : List Row) (h : trimWarmup df = Except.ok kept) :
    kept <:+ df := by
  unfold trimWarmup at h
  by_cases he : df.isEmpty
  · simp [he] at h
  · by_cases ha : df.any equityPos
    · simp [he, ha] at h
      exact h ▸ List.dropWhile_suffix _
    · simp [he, ha] at h
      exact h ▸ List.suffix_refl df

/-- C9, instantiated: the trimmed table is a suffix of the two-row input. -/
theorem C9_trim_suffix_witness : [posRow] <:+ [zeroRow, posRow] :=
  C9_trim_suffix [zeroRow, posRow] [posRow] (by rfl)

/-- On a nonempty table the warm-up trim never raises. -/
theorem trimWarmup_ok_of_ne_nil (t : List Row) (h : t ≠ []) :
    trimWarmup t =
      Except.ok (if t.any equityPos then t.dropWhile (fun r => ! equityPos r) else t) := by
  have he : t.isEmpty = false := by
    cases t with
    | nil => exact absurd rfl h
    | cons a l => rfl
  by_cases ha : t.any equityPos <;> simp [trimWarmup, he, ha]

/-- A directory with all four files present but an empty last-month timeline,
used as a concrete input. -/
def emptyTimelineDir : ResultsDir :=
  { performance_summary := some [sampleSummary "last_month"],
    timeline_last_month := some [],
    timeline_full_3mo := some [posRow],
    timeline_prior_2mo := some [posRow] }

/-- C3: the claim fails when all four files are present but a timeline table
is empty: `idxmax` on the empty mask raises `ValueError`, so the loader
neither raises not-found nor returns the loaded structure. -/
theorem C3_counterexample :
    emptyTimelineDir.performance_summary.isSome = true ∧
    emptyTimelineDir.timeline_last_month.isSome = true ∧
    emptyTimelineDir.timeline_full_3mo.isSome = true ∧
    emptyTimelineDir.timeline_prior_2mo.isSome = true ∧
    loadBacktestData emptyTimelineDir = Except.error PdError.emptyArgmax := by
  exact ⟨rfl, rfl, rfl, rfl, rfl⟩

/-- C3 (amended): when the four expected files are present and each timeline
is nonempty, `load_backtest_data` returns the summary table plus, per period
in order, the timeline with the warm-up trim applied; and whenever one of the
four files is absent (with the timelines read before it nonempty, so that an
earlier empty-table `ValueError` does not pre-empt the read), it fails with a
not-found condition. -/
theorem C3_load_amended (dir : ResultsDir) :
    (∀ s t1 t2 t3, dir.performance_summary = some s →
        dir.timeline_last_month = some t1 →
        dir.timeline_full_3mo = some t2 →
        dir.timeline_prior_2mo = some t3 →
        t1 ≠ [] → t2 ≠ [] → t3 ≠ [] →
        ∃ k1 k2 k3, trimWarmup t1 = Except.ok k1 ∧ trimWarmup t2 = Except.ok k2 ∧
          trimWarmup t3 = Except.ok k3 ∧
          loadBacktestData dir =
            Except.ok (s, [("last_month", k1), ("full_3mo", k2), ("prior_2mo", k3)])) ∧
    ((∀ t, dir.timeline_last_month = some t → t ≠ []) →
      (∀ t, dir.timeline_full_3mo = some t → t ≠ []) →
      (dir.performance_summary = none ∨ dir.timeline_last_month = none ∨
        dir.timeline_full_3mo = none ∨ dir.timeline_prior_2mo = none) →
      ∃ name, loadBacktestData dir = Except.error (PdError.fileNotFound name)) := by
  constructor
  · intro s t1 t2 t3 hs h1 h2 h3 hne1 hne2 hne3
    obtain ⟨k1, hk1⟩ : ∃ k, trimWarmup t1 = Except.ok k :=
      ⟨_, trimWarmup_ok_of_ne_nil t1 hne1⟩
    obtain ⟨k2, hk2⟩ : ∃ k, trimWarmup t2 = Except.ok k :=
      ⟨_, trimWarmup_ok_of_ne_nil t2 hne2⟩
    obtain ⟨k3, hk3⟩ : ∃ k, trimWarmup t3 = Except.ok k :=
      ⟨_, trimWarmup_ok_of_ne_nil t3 hne3⟩
    refine ⟨k1, k2, k3, hk1, hk2, hk3, ?_⟩
    simp [loadBacktestData, loadTimelines, readTimeline, hs, h1, h2, h3,
      hk1, hk2, hk3, Bind.bind, Except.bind, Functor.map, Except.map, pure,
      Except.pure]
  · intro h1ne h2ne habs
    cases hs : dir.performance_summary with
    | none =>
      exact ⟨"performance_summary.csv",
        by simp [loadBacktestData, hs, Bind.bind, Except.bind]⟩
    | some s =>
      cases h1 : dir.timeline_last_month with
      | none =>
        refine ⟨"timeline_last_month.csv", ?_⟩
        simp [loadBacktestData, loadTimelines, readTimeline, hs, h1,
          Bind.bind, Except.bind, Functor.map, Except.map]
      | some t1 =>
        obtain ⟨k1, hk1⟩ : ∃ k, trimWarmup t1 = Except.ok k :=
          ⟨_, trimWarmup_ok_of_ne_nil t1 (h1ne t1 h1)⟩
        cases h2 : dir.timeline_full_3mo with
        | none =>
          refine ⟨"timeline_full_3mo.csv", ?_⟩
          simp [loadBacktestData, loadTimelines, readTimeline, hs, h1, h2, hk1,
            Bind.bind, Except.bind, Functor.map, Except.map]
        | some t2 =>
          obtain ⟨k2, hk2⟩ : ∃ k, trimWarmup t2 = Except.ok k :=
            ⟨_, trimWarmup_ok_of_ne_nil t2 (h2ne t2 h2)⟩
          cases h3 : dir.timeline_prior_2mo with
          | none =>
            refine ⟨"timeline_prior_2mo.csv", ?_⟩
            simp [loadBacktestData, loadTimelines, readTimeline, hs, h1, h2, h3,
              hk1, hk2, Bind.bind, Except.bind, Functor.map, Except.map]
          | some t3 =>
            exfalso
            rcases habs with h | h | h | h
            · rw [hs] at h; exact Option.noConfusion h
            · rw [h1] at h; exact Option.noConfusion h
            · rw [h2] at h; exact Option.noConfusion h
            · rw [h3] at h; exact Option.noConfusion h

/-- A directory with all four files present and nonempty timelines, used as a
concrete input. -/
def goodDir : ResultsDir :=
  { performance_summary := some [sampleSummary "last_month"],
    timeline_last_month := some [zeroRow, posRow],
    timeline_full_3mo := some [posRow],
    timeline_prior_2mo := some [posRow] }

/-- C3 amended, instantiated on a directory holding all four files with
nonempty timelines. -/
theorem C3_load_amended_witness :
    ∃ k1 k2 k3, trimWarmup [zeroRow, posRow] = Except.ok k1 ∧
      trimWarmup [posRow] = Except.ok k2 ∧ trimWarmup [posRow] = Except.ok k3 ∧
      loadBacktestData goodDir =
        Except.ok ([sampleSummary "last_month"],
          [("last_month", k1), ("full_3mo", k2), ("prior_2mo", k3)]) :=
  (C3_load_amended goodDir).1 [sampleSummary "last_month"] [zeroRow, posRow]
    [posRow] [posRow] rfl rfl rfl rfl (by simp) (by simp) (by simp)

/-- Pointwise-equal predicates count equally. -/
theorem countP_congr_mem {α : Type} (l : List α) (p q : α → Bool)
    (h : ∀ a ∈ l, p a = q a) : l.countP p = l.countP q := by
  induction l with
  | nil => rfl
  | cons a l ih =>
    rw [List.countP_cons, List.countP_cons, h a (by simp),
      ih (fun b hb => h b (by simp [hb]))]

/-- The comparison table counts a display name as often as the summary counts
periods mapping to it. -/
theorem comparison_df_countP (summary : List SummaryRow) (t : List CompRow)
    (h : comparison_df summary = some t) (nm : String) :
    t.countP (fun c => c.Period == nm) =
      summary.countP (fun r => period_names.lookup r.period == some nm) := by
  induction summary generalizing t with
  | nil =>
    simp [comparison_df] at h
    subst h
    rfl
  | cons r rest ih =>
    cases hc : compRowOf r with
    | none => simp [comparison_df, hc] at h
    | some c =>
      cases hrest : comparison_df rest with
      | none => simp [comparison_df, hc, hrest] at h
      | some t' =>
        simp [comparison_df, hc, hrest] at h
        subst h
        obtain ⟨nm', hnm', hc'⟩ := Option.map_eq_some'.mp hc
        rw [List.countP_cons, List.countP_cons, ih t' hrest, hnm']
        have : (c.Period == nm) = (some nm' == some nm) := by
          rw [← hc']
          simp
        rw [this]

/-- The comparison table has one row per summary row. -/
theorem comparison_df_length (summary : List SummaryRow) (t : List CompRow)
    (h : comparison_df summary = some t) : t.length = summary.length := by
  induction summary generalizing t with
  | nil =>
    simp [comparison_df] at h
    simp [← h]
  | cons r rest ih =>
    cases hc : compRowOf r with
    | none => simp [comparison_df, hc] at h
    | some c =>
      cases hrest : comparison_df rest with
      | none => simp [comparison_df, hc, hrest] at h
      | some t' =>
        simp [comparison_df, hc, hrest] at h
        subst h
        simp [ih t' hrest]

/-- The comparison table exists when every period is known. -/
theorem comparison_df_isSome (summary : List SummaryRow)
    (h : ∀ r ∈ summary, r.period ∈ knownPeriods) :
    ∃ t, comparison_df summary = some t := by
  induction summary with
  | nil => exact ⟨[], rfl⟩
  | cons r rest ih =>
    obtain ⟨t', ht'⟩ := ih (fun x hx => h x (by simp [hx]))
    have hr : r.period ∈ knownPeriods := h r (by simp)
    have hc : (compRowOf r).isSome = true := by
      simp [knownPeriods] at hr
      rcases hr with hp | hp | hp <;> simp [compRowOf, period_names, List.lookup, hp]
    obtain ⟨c, hc⟩ := Option.isSome_iff_exists.mp hc
    exact ⟨c :: t', by simp [comparison_df, hc, ht']⟩

/-- C2: the claim fails when the summary table repeats a period: the loop on
lines 299-309 appends one row per summary row, so the one distinct period
present gets two comparison rows. -/
theorem C2_counterexample :
    (comparison_df [sampleSummary "last_month", sampleSummary "last_month"]).map
        (fun t => t.countP (fun c => c.Period == "Last Month")) = some 2 ∧
    (comparison_df [sampleSummary "last_month", sampleSummary "last_month"]).map
        (fun t => t.countP (fun c => c.Period == "Last Month")) ≠ some 1 := by
  constructor
  · rfl
  · decide

/-- C2 (amended): the comparison table contains exactly one row per row of
the summary table; provided every period identifier in the summary is one of
the three known ones and no period occurs in two summary rows, it contains
exactly one row for each distinct period present (labelled with that
period's display name) and no others. -/
theorem C2_comparison_amended (summary : List SummaryRow)
    (hknown : ∀ r ∈ summary, r.period ∈ knownPeriods)
    (hnodup : (summary.map SummaryRow.period).Nodup) :
    ∃ t, comparison_df summary = some t ∧ t.length = summary.length ∧
      ∀ p ∈ summary.map SummaryRow.period, ∃ nm,
        period_names.lookup p = some nm ∧
        t.countP (fun c => c.Period == nm) = 1 := by
  obtain ⟨t, ht⟩ := comparison_df_isSome summary hknown
  refine ⟨t, ht, comparison_df_length summary t ht, ?_⟩
  intro p hp
  obtain ⟨r0, hr0, hr0p⟩ := List.mem_map.mp hp
  have hpk : p ∈ knownPeriods := hr0p ▸ hknown r0 hr0
  have hnms : (period_names.lookup p).isSome = true := by
    have hpk2 := hpk
    simp [knownPeriods] at hpk2
    rcases hpk2 with h | h | h <;> subst h <;> simp [period_names, List.lookup]
  obtain ⟨nm, hnm⟩ := Option.isSome_iff_exists.mp hnms
  refine ⟨nm, hnm, ?_⟩
  rw [comparison_df_countP summary t ht nm]
  have hcongr : ∀ r ∈ summary,
      (period_names.lookup r.period == some nm) = (r.period == p) := by
    intro r hr
    have hrk : r.period ∈ knownPeriods := hknown r hr
    have hpk2 := hpk
    simp [knownPeriods] at hpk2 hrk
    rcases hpk2 with hp' | hp' | hp' <;> subst hp' <;>
      simp [period_names, List.lookup] at hnm <;> subst hnm <;>
      rcases hrk with hr' | hr' | hr' <;> rw [hr'] <;> decide
  rw [countP_congr_mem summary _ _ hcongr]
  have : summary.countP (fun r => r.period == p) =
      (summary.map SummaryRow.period).count p := by
    rw [List.count, List.countP_map]
    rfl
  rw [this]
  exact List.count_eq_one_of_mem hnodup hp

/-- C2 amended, instantiated on a summary with the two distinct periods
last_month and full_3mo. -/
theorem C2_comparison_amended_witness :
    ∃ t, comparison_df [sampleSummary "last_month", sampleSummary "full_3mo"] = some t ∧
      t.length = [sampleSummary "last_month", sampleSummary "full_3mo"].length ∧
      ∀ p ∈ [sampleSummary "last_month", sampleSummary "full_3mo"].map SummaryRow.period,
        ∃ nm, period_names.lookup p = some nm ∧
          t.countP (fun c => c.Period == nm) = 1 :=
  C2_comparison_amended [sampleSummary "last_month", sampleSummary "full_3mo"]
    (by decide) (by decide)

/-- C4: at every row, the derived cumulative PnL equals the forward-filled
equity at that row minus the selected period's initial capital taken from the
summary table (a row still NaN after the forward fill stays NaN). -/
theorem C4_cum_pnl (summary : List SummaryRow) (p : String) (s : SummaryRow)
    (_h : period_summary_row summary p = Except.ok s) (df : List Row) (i : Nat) :
    (cum_pnl df s.initial_capital)[i]? =
      ((equitySeries df)[i]?).map (Option.map (fun e => e - s.initial_capital)) := by
  simp [cum_pnl]

/-- C4, instantiated at row 1 of a two-row timeline with the capital of the
selected summary row. -/
theorem C4_cum_pnl_witness :
    (cum_pnl [zeroRow, posRow] (sampleSummary "last_month").initial_capital)[1]? =
      ((equitySeries [zeroRow, posRow])[1]?).map
        (Option.map (fun e => e - (sampleSummary "last_month").initial_capital)) :=
  C4_cum_pnl [sampleSummary "last_month"] "last_month" (sampleSummary "last_month")
    (by rfl) [zeroRow, posRow] 1

/-- C5: the trade log holds exactly the timeline rows with the entry flag or
the exit flag (or both) set: membership is equivalent to carrying a set flag,
and the log is the flag-filtered timeline, keeping order and multiplicity. -/
theorem C5_trade_log (df : List Row) (r : Row) :
    (r ∈ trade_log df ↔ r ∈ df ∧ (r.is_entry || r.is_exit) = true) ∧
    trade_log df = df.filter (fun x => x.is_entry || x.is_exit) := by
  constructor
  · simp [trade_log, List.mem_filter, Bool.or_comm]
  · exact List.filter_congr (fun x _ => Bool.or_comm x.is_exit x.is_entry)

/-- Indexing a zipWith: defined exactly when both inputs are. -/
theorem getElem?_zipWith_bind {α β γ : Type} (f : α → β → γ) (as : List α)
    (bs : List β) (i : Nat) :
    (List.zipWith f as bs)[i]? =
      (as[i]?).bind (fun a => (bs[i]?).map (fun b => f a b)) := by
  induction as generalizing bs i with
  | nil => simp
  | cons a as ih =>
    cases bs with
    | nil => simp
    | cons b bs =>
      cases i with
      | zero => simp
      | succ i => simpa using ih bs i

/-- Indexing `pct_change` past the first row: the cell-wise step on the two
adjacent values. -/
theorem pct_change_raw_succ (xs : List (Option ℚ)) (t : Nat) :
    (pct_change_raw xs)[t + 1]? =
      (xs[t]?).bind (fun a => (xs[t + 1]?).map (fun b => pctChangeCell a b)) := by
  cases xs with
  | nil => simp [pct_change_raw]
  | cons x tl =>
    show (none :: List.zipWith pctChangeCell (x :: tl) tl)[t + 1]? = _
    rw [List.getElem?_cons_succ, getElem?_zipWith_bind]
    rw [show (x :: tl)[t + 1]? = tl[t]? from List.getElem?_cons_succ]

/-- C6: the percent-change series starts at 0; at each later row where the
forward-filled equity is defined at the row and its predecessor (with nonzero
predecessor, as the division requires), it equals
(equity[t] - equity[t-1]) / equity[t-1]; and once a full window of 30 rows is
available the rolling-volatility output at row t is the (sample, ddof = 1)
standard deviation of the percent changes over the 30 most recent rows ending
at t, stated at the variance level. -/
theorem C6_pct_vol (df : List Row) :
    (df ≠ [] → (pct_change_series df)[0]? = some 0) ∧
    (∀ t a b, 1 ≤ t →
      (equitySeries df)[t - 1]? = some (some a) →
      (equitySeries df)[t]? = some (some b) → a ≠ 0 →
      (pct_change_series df)[t]? = some ((b - a) / a)) ∧
    (∀ t, 29 ≤ t → t < (pct_change_series df).length →
      (vol_rolling_sq df)[t]? =
        some (some (sampleVar (((pct_change_series df).drop (t - 29)).take 30)))) := by
  refine ⟨?_, ?_, ?_⟩
  · intro hne
    cases hdf : df with
    | nil => exact absurd hdf hne
    | cons r rest =>
      cases hr : r.equity <;>
        simp [pct_change_series, equitySeries, ffill, ffillAux, pct_change_raw, hr]
  · intro t a b ht h1 h2 ha
    cases t with
    | zero => exact absurd ht (by simp)
    | succ t' =>
      have h1' : (equitySeries df)[t']? = some (some a) := by simpa using h1
      rw [pct_change_series, List.getElem?_map, pct_change_raw_succ, h1', h2]
      show some ((pctChangeCell (some a) (some b)).getD 0) = _
      show some (b / a - 1) = some ((b - a) / a)
      rw [sub_div, div_self ha]
  · intro t ht1 ht2
    have hnot : ¬ (t + 1 < 30) := by omega
    have hsub : t + 1 - 30 = t - 29 := by omega
    rw [vol_rolling_sq, rolling_var, List.getElem?_map, List.getElem?_range]
    simp [ht2, hnot, hsub]
    exact ht2

/-- A timeline row with strictly increasing equity, for concrete inputs. -/
def wRow (k : Nat) : Row :=
  { zeroRow with time := 60 * k, equity := some ((100 + k : ℕ) : ℚ) }

/-- A 30-row timeline with defined, increasing equity, for concrete inputs. -/
def wDf : List Row := (List.range 30).map wRow

/-- C6, instantiated on a 30-row timeline: first percent change 0, second row
(101 - 100) / 100, and the first defined rolling window at row 29. -/
theorem C6_pct_vol_witness :
    (pct_change_series wDf)[0]? = some 0 ∧
    (pct_change_series wDf)[1]? = some (((101 : ℚ) - 100) / 100) ∧
    (vol_rolling_sq wDf)[29]? =
      some (some (sampleVar (((pct_change_series wDf).drop (29 - 29)).take 30))) :=
  ⟨(C6_pct_vol wDf).1 (by decide),
   (C6_pct_vol wDf).2.1 1 100 101 (by decide) (by decide) (by decide) (by decide),
   (C6_pct_vol wDf).2.2 29 (by decide) (by decide)⟩

/-- C7: the daily-volume aggregation holds the pair (d, v) exactly when some
timeline row falls on date d and v is the sum of `volume_usd` over the rows
on that date; and no date appears twice. -/
theorem C7_daily_volume (df : List Row) (d : Nat) (v : ℚ) :
    ((d, v) ∈ daily_volume df ↔
      (∃ r ∈ df, dateOf r.time = d) ∧
        v = ((df.filter (fun r => dateOf r.time == d)).map Row.volume_usd).sum) ∧
    ((daily_volume df).map Prod.fst).Nodup := by
  constructor
  · constructor
    · intro hmem
      obtain ⟨d', hd', heq⟩ := List.mem_map.mp hmem
      have heq' : (d', ((df.filter (fun r => dateOf r.time == d')).map
          Row.volume_usd).sum) = (d, v) := heq
      rw [Prod.mk.injEq] at heq'
      obtain ⟨hd, hv⟩ := heq'
      subst hd
      refine ⟨?_, hv.symm⟩
      obtain ⟨r, hr, hrd⟩ := List.mem_map.mp (List.mem_dedup.mp hd')
      exact ⟨r, hr, hrd⟩
    · rintro ⟨⟨r, hr, hrd⟩, hv⟩
      subst hv
      exact List.mem_map.mpr
        ⟨d, List.mem_dedup.mpr (List.mem_map.mpr ⟨r, hr, hrd⟩), rfl⟩
  · rw [daily_volume, List.map_map]
    have hid : (Prod.fst ∘ fun d =>
        (d, ((df.filter (fun r => dateOf r.time == d)).map Row.volume_usd).sum)) =
          id := rfl
    rw [hid, List.map_id]
    exact List.nodup_dedup _

/-- The trade-log display columns with `qty` absent from the frame. -/
def colsNoQty : List String :=
  ["signal", "price", "pnl", "equity", "volume_usd", "is_entry", "is_exit"]

/-- C8: the claim fails for the trade-log display: with the expected column
`qty` absent, the pass filters the display list down to the available columns
and succeeds, so no fatal error is raised. -/
theorem C8_counterexample :
    renderTradeLogCols colsNoQty =
      Except.ok ["signal", "price", "pnl", "equity", "volume_usd", "is_entry", "is_exit"] ∧
    "qty" ∈ display_cols ∧ "qty" ∉ colsNoQty := by
  refine ⟨rfl, by decide, by decide⟩

/-- C8 (amended): a column the pass accesses directly (the entry/exit flag
columns here, like equity and signal earlier in the script) raises an
uncaught KeyError when absent; but the trade-log display columns are filtered
to those present, so a column used only for display is silently omitted
rather than causing an error. -/
theorem C8_render_amended (columns : List String) :
    ("is_exit" ∈ columns → "is_entry" ∈ columns →
      renderTradeLogCols columns = Except.ok (available_cols columns) ∧
      ∀ c, c ∈ available_cols columns ↔ c ∈ display_cols ∧ c ∈ columns) ∧
    ("is_exit" ∉ columns ∨ "is_entry" ∉ columns →
      ∃ c, renderTradeLogCols columns = Except.error (KeyError.missing c)) := by
  constructor
  · intro h1 h2
    constructor
    · simp [renderTradeLogCols, requireCol, h1, h2, Bind.bind, Except.bind,
        pure, Except.pure]
    · intro c
      simp [available_cols, List.mem_filter]
  · intro h
    rcases h with h | h
    · exact ⟨"is_exit",
        by simp [renderTradeLogCols, requireCol, h, Bind.bind, Except.bind]⟩
    · by_cases h1 : "is_exit" ∈ columns
      · exact ⟨"is_entry",
          by simp [renderTradeLogCols, requireCol, h1, h, Bind.bind, Except.bind]⟩
      · exact ⟨"is_exit",
          by simp [renderTradeLogCols, requireCol, h1, Bind.bind, Except.bind]⟩

/-- C8 amended, instantiated on the frame lacking `qty`: the display succeeds
and shows exactly the expected columns that exist. -/
theorem C8_render_amended_witness :
    renderTradeLogCols colsNoQty = Except.ok (available_cols colsNoQty) ∧
    ("qty" ∈ available_cols colsNoQty ↔ "qty" ∈ display_cols ∧ "qty" ∈ colsNoQty) :=
  ⟨((C8_render_amended colsNoQty).1 (by decide) (by decide)).1,
   ((C8_render_amended colsNoQty).1 (by decide) (by decide)).2 "qty"⟩

/-- The summary-row selection in terms of the first match. -/
theorem period_summary_row_eq_find (summary : List SummaryRow) (p : String) :
    period_summary_row summary p =
      match summary.find? (fun x => x.period == p) with
      | some r => Except.ok r
      | none => Except.error RenderError.indexOutOfBounds := by
  induction summary with
  | nil => rfl
  | cons a rest ih =>
    by_cases ha : (a.period == p) = true
    · simp [period_summary_row, List.filter_cons, List.find?_cons, ha]
    · have ha' : (a.period == p) = false := by
        cases hb : (a.period == p) with
        | true => exact absurd hb ha
        | false => rfl
      simp only [period_summary_row, List.filter_cons, List.find?_cons, ha',
        cond_false, Bool.false_eq_true, if_false]
      exact ih

/-- C10: rendering a period needs a summary row whose period column equals
the selected identifier; with one, the first matching row is selected, and
with none the `iloc[0]` selection fails out of bounds. -/
theorem C10_period_selection (summary : List SummaryRow) (p : String) :
    ((∃ r ∈ summary, r.period = p) →
      ∃ r, summary.find? (fun x => x.period == p) = some r ∧
        period_summary_row summary p = Except.ok r) ∧
    ((∀ r ∈ summary, r.period ≠ p) →
      period_summary_row summary p = Except.error RenderError.indexOutOfBounds) := by
  constructor
  · intro hex
    have hsome : (summary.find? (fun x => x.period == p)).isSome := by
      rw [List.find?_isSome]
      obtain ⟨r, hr, hrp⟩ := hex
      exact ⟨r, hr, by simp [hrp]⟩
    obtain ⟨r, hr⟩ := Option.isSome_iff_exists.mp hsome
    refine ⟨r, hr, ?_⟩
    rw [period_summary_row_eq_find, hr]
  · intro hall
    have hnone : summary.find? (fun x => x.period == p) = none := by
      rw [List.find?_eq_none]
      intro x hx
      simp [hall x hx]
    rw [period_summary_row_eq_find, hnone]

/-- C10, instantiated: with two summary rows, the first one whose period
matches the selection is returned. -/
theorem C10_period_selection_witness :
    ∃ r, [sampleSummary "full_3mo", sampleSummary "last_month"].find?
        (fun x => x.period == "last_month") = some r ∧
      period_summary_row [sampleSummary "full_3mo", sampleSummary "last_month"]
        "last_month" = Except.ok r :=
  (C10_period_selection [sampleSummary "full_3mo", sampleSummary "last_month"]
    "last_month").1 ⟨sampleSummary "last_month", by decide, by decide⟩
